import Mathlib

/-!
Verification development for the CloudBeaver-on-AWS provisioning stack
(`lib/cloud-beaver-on-aws-stack.ts`).  The stack is declarative composition:
it builds a graph of managed resources (VPC, secrets, RDS instance, EFS file
system, ECS cluster/service, ALB, Cognito user pool) plus one imperative
custom resource (the identity reconciler) that calls `adminCreateUser` /
`adminDeleteUser` against the pool.  We embed the synthesized configuration
as explicit data — template values, dependency edges, IAM policies, listener
actions, security-group ingress rules, custom-resource SDK calls, stack
outputs — and prove properties of that data and of the small operational
semantics the configuration induces.
-/

namespace CloudBeaver

/-- Value occurring in the synthesized template: either a literal string
embedded verbatim, a deploy-time token that resolves to a resource attribute
(the ALB DNS name, the database endpoint, the user-pool id), or a Secrets
Manager reference (`ecsSecret.fromSecretsManager(secret, field)`), which
names the secret store entry and is resolved to the secret value only at
container launch, never materialized in the template. -/
inductive Piece
  | lit (s : String)
  | albDnsName
  | dbEndpointAddress
  | dbEndpointPort
  | userPoolIdRef
  | secretRef (secretName field : String)
deriving DecidableEq, Repr

/-- True exactly for values embedded verbatim (in plaintext) in the template. -/
def Piece.isPlainLiteral : Piece → Bool
  | .lit _ => true
  | _ => false

/-- True exactly for values that are references into the secret store. -/
def Piece.mentionsSecretStore : Piece → Bool
  | .secretRef _ _ => true
  | _ => false

/-- Resources instantiated by the stack constructor, named after the source
variables (lines 24-253 of `cloud-beaver-on-aws-stack.ts`). -/
inductive Node
  | vpc
  | adminSecret
  | dbSecret
  | dbInstance
  | fileSystem
  | accessPoint
  | cluster
  | taskDefinition
  | ecsService
  | alb
  | userPool
  | userPoolDomain
  | userPoolClient
  | targetGroup
  | listener
  | cognitoUserRole
  | cognitoUser
deriving DecidableEq, Fintype, Repr

/-- Dependency edges of the provisioning graph: `deps b` lists the resources
that must be ready before `b` is created.  The two `cluster` edges to
`fileSystem` and `dbInstance` are the explicit `cluster.node.addDependency`
calls (lines 64-65); every other edge is implicit, induced by an attribute
reference in the source: `dbInstance` consumes `vpc` and its credentials
secret (lines 40, 44); `fileSystem` consumes `vpc` (line 51); `accessPoint`
consumes `fileSystem` (line 57); `cluster` also consumes `vpc` (line 62);
`taskDefinition` consumes the file system id, access point id, database
endpoint and both secrets (lines 75-77, 98-107); `ecsService` consumes
`cluster` and `taskDefinition` (lines 118-119); `alb` consumes `vpc`
(line 130); `userPoolDomain` consumes `userPool` (line 149);
`userPoolClient` consumes `userPool` (line 156) and the ALB DNS name
(line 163); `targetGroup` consumes `vpc` and `ecsService` (lines 170, 173);
`listener` consumes `alb`, the pool, client, domain, and `targetGroup`
(lines 182-192); `cognitoUserRole` consumes the pool ARN (line 212);
`cognitoUser` consumes the pool id and the role (lines 225, 249). -/
def deps : Node → List Node
  | .vpc => []
  | .adminSecret => []
  | .dbSecret => []
  | .dbInstance => [.vpc, .dbSecret]
  | .fileSystem => [.vpc]
  | .accessPoint => [.fileSystem]
  | .cluster => [.vpc, .fileSystem, .dbInstance]
  | .taskDefinition => [.fileSystem, .accessPoint, .dbInstance, .dbSecret, .adminSecret]
  | .ecsService => [.cluster, .taskDefinition]
  | .alb => [.vpc]
  | .userPool => []
  | .userPoolDomain => [.userPool]
  | .userPoolClient => [.userPool, .alb]
  | .targetGroup => [.vpc, .ecsService]
  | .listener => [.alb, .userPool, .userPoolClient, .userPoolDomain, .targetGroup]
  | .cognitoUserRole => [.userPool]
  | .cognitoUser => [.userPool, .cognitoUserRole]

/-- `Before a b order` : some occurrence of `a` precedes some occurrence of
`b` in the schedule `order` (stated as: `[a, b]` is a sublist of `order`). -/
abbrev Before (a b : Node) (order : List Node) : Prop :=
  List.Sublist [a, b] order

/-- A create schedule respects the dependency graph when every dependency is
created before its dependent. -/
abbrev RespectsDeps (order : List Node) : Prop :=
  ∀ a b : Node, a ∈ deps b → Before a b order

/-- One concrete create schedule for the full stack, in dependency order
(deletes run over its reverse). -/
def createOrder : List Node :=
  [.vpc, .adminSecret, .dbSecret, .dbInstance, .fileSystem, .accessPoint, .cluster,
   .taskDefinition, .ecsService, .alb, .userPool, .userPoolDomain, .userPoolClient,
   .targetGroup, .listener, .cognitoUserRole, .cognitoUser]

/-- One SDK call of the custom resource, as configured in the stack.
`parameters` are the call's request parameters as template values (the
`UserAttributes` name/value list is flattened to dotted keys);
`ignoreErrorCodesMatching` is the optional error-code pattern (a regex in the
framework, embedded as a predicate on error codes) under which a failed call
is still reported as success. -/
structure SdkCall where
  service : String
  action : String
  physicalResourceId : Option String
  parameters : List (String × Piece)
  ignoreErrorCodesMatching : Option (String → Bool)

/-- The `onCreate` call of the `cognito-user` custom resource
(lines 220-240): `adminCreateUser` with a fixed physical resource id, a
hard-coded username and temporary password, and no error codes ignored. -/
def onCreateCall : SdkCall :=
  { service := "CognitoIdentityServiceProvider"
    action := "adminCreateUser"
    physicalResourceId := some "cb-cognito-user-create"
    parameters :=
      [("UserPoolId", .userPoolIdRef),
       ("Username", .lit "tester@test.com"),
       ("UserAttributes.email", .lit "tester@test.com"),
       ("UserAttributes.email_verified", .lit "true"),
       ("TemporaryPassword", .lit "Pass123!"),
       ("MessageAction", .lit "SUPPRESS")]
    ignoreErrorCodesMatching := none }

/-- The `onDelete` call of the `cognito-user` custom resource
(lines 241-248): `adminDeleteUser` for the same username, again with no
error codes ignored. -/
def onDeleteCall : SdkCall :=
  { service := "CognitoIdentityServiceProvider"
    action := "adminDeleteUser"
    physicalResourceId := none
    parameters :=
      [("UserPoolId", .userPoolIdRef),
       ("Username", .lit "tester@test.com")]
    ignoreErrorCodesMatching := none }

/-- Configuration of an `AwsCustomResource`: the three optional lifecycle
calls plus the resource list of the auto-generated `fromSdkCalls` policy. -/
structure AwsCustomResourceProps where
  onCreate : Option SdkCall
  onUpdate : Option SdkCall
  onDelete : Option SdkCall

/-- The `cognito-user` custom resource of the stack (lines 219-253): an
`onCreate` and an `onDelete` call and no `onUpdate` call. -/
def cognitoUserProps : AwsCustomResourceProps :=
  { onCreate := some onCreateCall
    onUpdate := none
    onDelete := some onDeleteCall }

/-- Look up a request parameter of an SDK call by name. -/
def lookupParam (c : SdkCall) (k : String) : Option Piece :=
  c.parameters.lookup k

/-! ## Operational semantics of the identity reconciler

The custom resource issues its configured SDK calls against the identity
provider.  We model the pool's user directory as the list of usernames it
holds, the two admin calls by their service contract (`AdminCreateUser`
fails with `UsernameExistsException` when the username is already present;
`AdminDeleteUser` fails with `UserNotFoundException` when it is absent), and
the custom-resource runtime's error policy: a failed call is reported as
success exactly when the call's `ignoreErrorCodesMatching` pattern accepts
the error code, and is a hard failure otherwise. -/

/-- Usernames present in the user pool. -/
abbrev PoolUsers := List String

/-- Contract of the identity provider's `AdminCreateUser` call: fails with
`UsernameExistsException` when the username already exists, otherwise adds
the user. -/
def adminCreateUser (users : PoolUsers) (u : String) : Except String PoolUsers :=
  if u ∈ users then .error "UsernameExistsException" else .ok (u :: users)

/-- Contract of the identity provider's `AdminDeleteUser` call: fails with
`UserNotFoundException` when the username is absent, otherwise removes it. -/
def adminDeleteUser (users : PoolUsers) (u : String) : Except String PoolUsers :=
  if u ∈ users then .ok (users.erase u) else .error "UserNotFoundException"

/-- Error policy of the custom-resource runtime: an SDK-call error is
absorbed (reported as success, leaving the pool state `prev` unchanged)
exactly when the configured `ignoreErrorCodesMatching` pattern accepts the
error code; with no pattern configured every error is a hard failure. -/
def absorbErrors (ignorePattern : Option (String → Bool)) (prev : PoolUsers) :
    Except String PoolUsers → Except String PoolUsers
  | .ok s => .ok s
  | .error e =>
    match ignorePattern with
    | some accept => if accept e then .ok prev else .error e
    | none => .error e

/-- True exactly when the custom-resource call is reported as success. -/
def isOkResult : Except String PoolUsers → Bool
  | .ok _ => true
  | .error _ => false

/-- The username the reconciler manages, read off the `onCreate` call's
`Username` parameter. -/
def cognitoUsername : String :=
  match lookupParam onCreateCall "Username" with
  | some (.lit s) => s
  | _ => ""

/-- The reconciler's create operation: run the configured `adminCreateUser`
call and apply the configured error policy. -/
def reconcilerCreate (users : PoolUsers) : Except String PoolUsers :=
  absorbErrors onCreateCall.ignoreErrorCodesMatching users (adminCreateUser users cognitoUsername)

/-- The reconciler's delete operation: run the configured `adminDeleteUser`
call and apply the configured error policy. -/
def reconcilerDelete (users : PoolUsers) : Except String PoolUsers :=
  absorbErrors onDeleteCall.ignoreErrorCodesMatching users (adminDeleteUser users cognitoUsername)

/-! ## Custom-resource lifecycle -/

/-- CloudFormation lifecycle events delivered to a custom resource. -/
inductive CfnEvent
  | create
  | update
  | delete
deriving DecidableEq, Repr

/-- The SDK call the custom resource issues for a lifecycle event: the
framework uses `onCreate` (falling back to `onUpdate`) for create events,
`onUpdate` for update events and `onDelete` for delete events; an event
whose slot is empty issues no call. -/
def callFor (cfg : AwsCustomResourceProps) : CfnEvent → Option SdkCall
  | .create =>
    match cfg.onCreate with
    | some c => some c
    | none => cfg.onUpdate
  | .update => cfg.onUpdate
  | .delete => cfg.onDelete

/-- Stack lifetime with `n` re-applications (updates) after the initial
creation, ending in a teardown exactly when `deleted` is true. -/
def lifecycleEvents (n : Nat) (deleted : Bool) : List CfnEvent :=
  CfnEvent.create :: List.replicate n CfnEvent.update ++ (if deleted then [CfnEvent.delete] else [])

/-- All SDK calls the `cognito-user` custom resource issues over a sequence
of lifecycle events. -/
def callsIssued (evts : List CfnEvent) : List SdkCall :=
  evts.filterMap (callFor cognitoUserProps)

/-! ## IAM capability of the reconciler

The execution role `cognito-user-role` (lines 196-217) carries a hand-written
inline policy; in addition, the `AwsCustomResource`'s `policy:
fromSdkCalls({resources: ANY_RESOURCE})` (lines 250-252) generates one
statement per configured SDK call — action derived from the call's
service/action pair, resources as configured, here `ANY_RESOURCE`, i.e.
`*` — and attaches that policy to the provided role. -/

/-- Resource patterns occurring in the stack's IAM statements: the wildcard
`*` (`ANY_RESOURCE`) or the ARN of the one user pool the stack creates. -/
inductive IamResource
  | any
  | userPoolArn
deriving DecidableEq, Repr

/-- One IAM policy statement. -/
structure IamStatement where
  actions : List String
  resources : List IamResource
deriving DecidableEq, Repr

/-- A named IAM policy. -/
structure IamPolicy where
  policyName : String
  statements : List IamStatement
deriving DecidableEq, Repr

/-- The hand-written `CognitoUserPolicy` inline policy of
`cognito-user-role` (lines 201-216): the five admin-user-management actions
on the user-pool ARN. -/
def cognitoUserPolicy : IamPolicy :=
  { policyName := "CognitoUserPolicy"
    statements :=
      [{ actions :=
           ["cognito-idp:AdminCreateUser",
            "cognito-idp:AdminDeleteUser",
            "cognito-idp:AdminSetUserPassword",
            "cognito-idp:AdminConfirmSignUp",
            "cognito-idp:AdminUpdateUserAttributes"],
         resources := [.userPoolArn] }] }

/-- Capitalize the first character of a string (SDK action names are
lower-camel-case; IAM action names are upper-camel-case). -/
def capFirst (s : String) : String :=
  match s.data with
  | [] => s
  | c :: cs => String.mk (Char.toUpper c :: cs)

/-- IAM service namespace for an SDK service name, per the framework's
SDK-to-IAM mapping (the only service this stack calls is
`CognitoIdentityServiceProvider`, which maps to `cognito-idp`). -/
def iamServiceOf : String → String
  | "CognitoIdentityServiceProvider" => "cognito-idp"
  | s => s.toLower

/-- IAM action name for an SDK call. -/
def iamActionOf (c : SdkCall) : String :=
  iamServiceOf c.service ++ ":" ++ capFirst c.action

/-- The calls configured on the `cognito-user` custom resource, in
create/update/delete slot order. -/
def configuredCalls (cfg : AwsCustomResourceProps) : List SdkCall :=
  [cfg.onCreate, cfg.onUpdate, cfg.onDelete].filterMap id

/-- The auto-generated `fromSdkCalls` policy of the `cognito-user` custom
resource (lines 250-252): one statement per configured call, with
`resources: ANY_RESOURCE`. -/
def sdkCallsPolicy : IamPolicy :=
  { policyName := "CustomResourcePolicy"
    statements := (configuredCalls cognitoUserProps).map fun c =>
      { actions := [iamActionOf c], resources := [IamResource.any] } }

/-- The customer-managed policies attached to the reconciler's execution
role: the hand-written inline policy plus the auto-generated SDK-calls
policy (the role additionally carries the AWS-managed
`service-role/AWSLambdaBasicExecutionRole`, referenced by name on
line 199). -/
def reconcilerRolePolicies : List IamPolicy :=
  [cognitoUserPolicy, sdkCallsPolicy]

/-- The claim of §4.2 on the reconciler's capability: every statement of
every policy attached to the role is scoped to exactly the one user-pool
resource. -/
def allStatementsPoolScoped : Bool :=
  reconcilerRolePolicies.all fun p =>
    p.statements.all fun st => st.resources == [IamResource.userPoolArn]

/-! ## OAuth client, listener, target group, network policy, outputs -/

/-- Configuration of the user-pool OAuth client `cb-user-pool-client`
(lines 156-166). -/
structure UserPoolClientProps where
  generateSecret : Bool
  authorizationCodeGrant : Bool
  oauthScopes : List String
  callbackUrls : List (List Piece)
  preventUserExistenceErrors : Bool

/-- The stack's OAuth client: one callback URL, built from the literal
scheme `https://`, the ALB's DNS-name token and the literal path
`/oauth2/idpresponse` (line 163). -/
def userPoolClientProps : UserPoolClientProps :=
  { generateSecret := true
    authorizationCodeGrant := true
    oauthScopes := ["openid"]
    callbackUrls := [[.lit "https://", .albDnsName, .lit "/oauth2/idpresponse"]]
    preventUserExistenceErrors := true }

/-- Listener protocols used by the stack. -/
inductive AppProtocol
  | http
  | https
deriving DecidableEq, Repr

/-- Actions an ALB listener rule can take, as configured here: the Cognito
authenticate action wrapping a `next` action, or a forward to target
groups. -/
inductive LbAction
  | authenticateCognito (pool client domain : Node) (sessionTimeoutMinutes : Nat) (next : LbAction)
  | forward (targets : List Node)
deriving DecidableEq, Repr

/-- A request as the listener's action chain discriminates it: whether it
carries a valid (non-expired) authenticated session. -/
structure Request where
  authenticatedSession : Bool
deriving DecidableEq, Repr

/-- Outcome of the listener's action chain for one request. -/
inductive RouteResult
  | redirectToLogin
  | forwarded (targets : List Node)
deriving DecidableEq, Repr

/-- Per-request evaluation of a listener action: the authenticate action
forwards to its `next` action only on a valid session and otherwise
redirects to the identity provider's hosted login; a forward action sends
the request to its target groups. -/
def evalAction : LbAction → Request → RouteResult
  | .authenticateCognito _ _ _ _ next, req =>
    if req.authenticatedSession then evalAction next req else .redirectToLogin
  | .forward ts, _ => .forwarded ts

/-- An HTTPS listener: port, protocol, bound certificates (here the one
certificate imported from the `cert-arn` parameter, line 135) and the
default action chain. -/
structure ListenerProps where
  port : Nat
  protocol : AppProtocol
  certificateParams : List String
  defaultAction : LbAction

/-- The ALB's `app-listener` (lines 182-193): HTTPS on 443 with the imported
certificate, defaulting to the Cognito authenticate action whose `next`
action forwards to the target group. -/
def appListener : ListenerProps :=
  { port := 443
    protocol := .https
    certificateParams := ["cert-arn"]
    defaultAction :=
      .authenticateCognito .userPool .userPoolClient .userPoolDomain 30
        (.forward [.targetGroup]) }

/-- The `cb-alb-target` target group (lines 169-180). -/
structure TargetGroupProps where
  port : Nat
  protocol : AppProtocol
  targets : List Node
  healthyThresholdCount : Nat
  unhealthyThresholdCount : Nat
  healthTimeoutSeconds : Nat
  healthIntervalSeconds : Nat
deriving DecidableEq, Repr

/-- The stack's target group: HTTP port 8978, targeting the ECS service. -/
def cbAlbTarget : TargetGroupProps :=
  { port := 8978
    protocol := .http
    targets := [.ecsService]
    healthyThresholdCount := 2
    unhealthyThresholdCount := 2
    healthTimeoutSeconds := 10
    healthIntervalSeconds := 20 }

/-- One security-group ingress rule created by the stack:
`target.connections.allowDefaultPortFrom(peer)` admits `peer`'s security
group on `target`'s default port. -/
structure IngressRule where
  target : Node
  peer : Node
deriving DecidableEq, Repr

/-- All ingress rules the stack adds (lines 124-125): the file system and
the database instance each admit the ECS service on their default port. -/
def securityIngressRules : List IngressRule :=
  [{ target := .fileSystem, peer := .ecsService },
   { target := .dbInstance, peer := .ecsService }]

/-- Container secret bindings of the application container (lines 104-108):
each environment name maps to a Secrets Manager reference (secret name plus
JSON field), resolved inside the container at launch. -/
def containerSecretBindings : List (String × Piece) :=
  [("CLOUDBEAVER_DB_PASSWORD", .secretRef "cb-db-secret" "password"),
   ("CLOUDBEAVER_QM_DB_PASSWORD", .secretRef "cb-db-secret" "password"),
   ("CB_ADMIN_PASSWORD", .secretRef "cb-admin-secret" "password")]

/-- Every credential value the synthesized stack binds anywhere: the three
container secret bindings plus the reconciler's `TemporaryPassword`
parameter. -/
def credentialBindings : List Piece :=
  containerSecretBindings.map Prod.snd ++ (lookupParam onCreateCall "TemporaryPassword").toList

/-- The claim of the credential invariant: no credential binding is a
plaintext literal embedded in the synthesized template. -/
def noPlaintextCredentials : Bool :=
  credentialBindings.all fun p => !(Piece.isPlainLiteral p)

/-- One CloudFormation output of the stack. -/
structure StackOutput where
  logicalId : String
  value : List Piece
  exportName : String
deriving DecidableEq, Repr

/-- The stack's outputs (lines 255-256): the entry point URL and the
bootstrap username. -/
def stackOutputs : List StackOutput :=
  [{ logicalId := "alb-url", value := [.lit "https://", .albDnsName],
     exportName := "loadBalancerDnsName" },
   { logicalId := "user", value := [.lit "tester@test.com"],
     exportName := "userEmail" }]

/-- The claim that some output points at the credential store (a Secrets
Manager reference). -/
def outputsPointAtCredentialStore : Bool :=
  stackOutputs.any fun o => o.value.any Piece.mentionsSecretStore

/-- The claim that some output exposes a credential value: a secret-store
value reference or the reconciler's hard-coded temporary password. -/
def outputsExposeCredentialValue : Bool :=
  stackOutputs.any fun o => o.value.any fun p =>
    Piece.mentionsSecretStore p || p == Piece.lit "Pass123!"

/-! ## Claims C1 and C2: error handling of the reconciler's create/delete -/

/-- Claim C1, counterexample: starting from an empty pool, the first create
succeeds and adds the one user, but a second create for the same
`(poolId, username)` pair is not a no-op success — it is a hard failure with
the `AlreadyExists` error (`UsernameExistsException`), because the
`onCreate` call configures no `ignoreErrorCodesMatching` pattern that could
absorb it. -/
theorem create_twice_counterexample :
    reconcilerCreate [] = Except.ok [cognitoUsername] ∧
    isOkResult (reconcilerCreate [cognitoUsername]) = false ∧
    reconcilerCreate [cognitoUsername] = Except.error "UsernameExistsException" :=
  ⟨rfl, rfl, rfl⟩

/-- Claim C1 (amended): whenever the managed username is already present in
the pool, the reconciler's create operation is a hard failure with the
`AlreadyExists` error, since the `onCreate` call ignores no error codes;
re-invocation is instead avoided by the declarative lifecycle (see C10). -/
theorem create_on_existing_user_fails (users : PoolUsers) (h : cognitoUsername ∈ users) :
    reconcilerCreate users = Except.error "UsernameExistsException" ∧
    onCreateCall.ignoreErrorCodesMatching = none := by
  refine ⟨?_, rfl⟩
  simp [reconcilerCreate, adminCreateUser, h, absorbErrors, onCreateCall]

/-- Claim C1, witness: the amended statement evaluated on the singleton pool
that already holds the managed user. -/
theorem create_on_existing_user_fails_witness :
    reconcilerCreate [cognitoUsername] = Except.error "UsernameExistsException" ∧
    onCreateCall.ignoreErrorCodesMatching = none :=
  create_on_existing_user_fails [cognitoUsername] (List.mem_singleton_self _)

/-- Claim C2, counterexample: deleting the managed user from a pool in which
it is already absent is not a success with a warning — it is a hard failure
with the `NotFound` error (`UserNotFoundException`), because the `onDelete`
call configures no `ignoreErrorCodesMatching` pattern that could absorb
it. -/
theorem delete_absent_user_counterexample :
    isOkResult (reconcilerDelete []) = false ∧
    reconcilerDelete [] = Except.error "UserNotFoundException" :=
  ⟨rfl, rfl⟩

/-- Claim C2 (amended): whenever the managed username is absent from the
pool, the reconciler's delete operation is a hard failure with the
`NotFound` error, since the `onDelete` call ignores no error codes. -/
theorem delete_absent_user_fails (users : PoolUsers) (h : cognitoUsername ∉ users) :
    reconcilerDelete users = Except.error "UserNotFoundException" ∧
    onDeleteCall.ignoreErrorCodesMatching = none := by
  refine ⟨?_, rfl⟩
  simp [reconcilerDelete, adminDeleteUser, h, absorbErrors, onDeleteCall]

/-- Claim C2, witness: the amended statement evaluated on the empty pool. -/
theorem delete_absent_user_fails_witness :
    reconcilerDelete [] = Except.error "UserNotFoundException" ∧
    onDeleteCall.ignoreErrorCodesMatching = none :=
  delete_absent_user_fails [] (List.not_mem_nil _)

/-! ## Claim C3: capability scope of the reconciler -/

/-- Claim C3, counterexample: it is not the case that every policy attached
to the reconciler's role is scoped to the one user-pool resource — the
auto-generated SDK-calls policy (configured with `ANY_RESOURCE`) contains a
statement granting `cognito-idp:AdminCreateUser` on the wildcard resource
`*`. -/
theorem role_policy_counterexample :
    allStatementsPoolScoped = false ∧
    sdkCallsPolicy ∈ reconcilerRolePolicies ∧
    IamStatement.mk ["cognito-idp:AdminCreateUser"] [IamResource.any] ∈ sdkCallsPolicy.statements := by
  refine ⟨rfl, ?_, ?_⟩ <;> decide

/-- Claim C3 (amended): the hand-written inline policy is indeed limited to
exactly the five admin-user-management actions on exactly the user-pool ARN,
but the role additionally carries the auto-generated SDK-calls policy, whose
two statements grant the invoked create and delete actions on the wildcard
resource `*`. -/
theorem reconciler_role_policies_shape :
    cognitoUserPolicy.statements =
      [{ actions :=
           ["cognito-idp:AdminCreateUser",
            "cognito-idp:AdminDeleteUser",
            "cognito-idp:AdminSetUserPassword",
            "cognito-idp:AdminConfirmSignUp",
            "cognito-idp:AdminUpdateUserAttributes"],
         resources := [IamResource.userPoolArn] }] ∧
    sdkCallsPolicy.statements =
      [{ actions := ["cognito-idp:AdminCreateUser"], resources := [IamResource.any] },
       { actions := ["cognito-idp:AdminDeleteUser"], resources := [IamResource.any] }] ∧
    reconcilerRolePolicies = [cognitoUserPolicy, sdkCallsPolicy] := by
  refine ⟨rfl, ?_, rfl⟩
  decide

/-! ## Claim C4: credentials never appear in plaintext -/

/-- Claim C4, counterexample: not every credential binding of the
synthesized stack stays inside the secret store — the reconciler's
`TemporaryPassword` parameter is the plaintext literal `Pass123!`, embedded
verbatim in the custom resource's `onCreate` parameters. -/
theorem plaintext_credential_counterexample :
    noPlaintextCredentials = false ∧
    lookupParam onCreateCall "TemporaryPassword" = some (Piece.lit "Pass123!") :=
  ⟨rfl, rfl⟩

/-- Claim C4 (amended): the generated database and application admin
credentials are bound to the container purely as secret-store references
(never plaintext), but the credential the reconciler handles — its
temporary password — is a hard-coded plaintext literal in the resource
descriptor. -/
theorem generated_secrets_stay_in_store :
    (containerSecretBindings.all fun b => Piece.mentionsSecretStore b.2) = true ∧
    (containerSecretBindings.all fun b => !(Piece.isPlainLiteral b.2)) = true ∧
    lookupParam onCreateCall "TemporaryPassword" = some (Piece.lit "Pass123!") ∧
    Piece.isPlainLiteral (Piece.lit "Pass123!") = true :=
  ⟨rfl, rfl, rfl, rfl⟩

/-! ## Claim C9: operator-visible outputs -/

/-- Claim C9, counterexample: the stack emits exactly the two outputs
`alb-url` and `user`; no output is a pointer to where the generated
credentials are stored, so the claimed third output does not exist. -/
theorem outputs_counterexample :
    stackOutputs.map (fun o => o.logicalId) = ["alb-url", "user"] ∧
    outputsPointAtCredentialStore = false :=
  ⟨rfl, rfl⟩

/-- Claim C9 (amended): a successful run produces exactly two
operator-visible outputs — the entry point's resolvable address
(`https://` plus the ALB DNS name) and the bootstrap username — and no
output carries a credential value or a credential-store pointer. -/
theorem outputs_shape :
    stackOutputs.length = 2 ∧
    (stackOutputs.map fun o => o.value) =
      [[Piece.lit "https://", Piece.albDnsName], [Piece.lit "tester@test.com"]] ∧
    outputsExposeCredentialValue = false ∧
    outputsPointAtCredentialStore = false :=
  ⟨rfl, rfl, rfl, rfl⟩

/-! ## Claim C5: compute cluster created after database and file system -/

/-- Claim C5: the dependency graph contains edges from the database instance
and from the file system to the compute cluster (the explicit
`cluster.node.addDependency` calls), so in every schedule that respects the
dependency graph the cluster is created after both prerequisites, and in the
reverse (delete) schedule it is removed before either. -/
theorem cluster_after_store_and_volume (order : List Node) (h : RespectsDeps order) :
    Node.dbInstance ∈ deps Node.cluster ∧ Node.fileSystem ∈ deps Node.cluster ∧
    Before Node.dbInstance Node.cluster order ∧ Before Node.fileSystem Node.cluster order ∧
    Before Node.cluster Node.dbInstance order.reverse ∧
    Before Node.cluster Node.fileSystem order.reverse := by
  have hdb : Before Node.dbInstance Node.cluster order := h _ _ (by decide)
  have hfs : Before Node.fileSystem Node.cluster order := h _ _ (by decide)
  refine ⟨by decide, by decide, hdb, hfs, ?_, ?_⟩
  · simpa using hdb.reverse
  · simpa using hfs.reverse

/-- Claim C5, witness: the property evaluated on the concrete full-stack
create schedule. -/
theorem cluster_after_store_and_volume_witness :
    Node.dbInstance ∈ deps Node.cluster ∧ Node.fileSystem ∈ deps Node.cluster ∧
    Before Node.dbInstance Node.cluster createOrder ∧
    Before Node.fileSystem Node.cluster createOrder ∧
    Before Node.cluster Node.dbInstance createOrder.reverse ∧
    Before Node.cluster Node.fileSystem createOrder.reverse :=
  cluster_after_store_and_volume createOrder (by decide)

/-! ## Claim C6: the OAuth client's callback URL -/

/-- Claim C6: the OAuth client registers exactly one callback URL — the
literal scheme `https://`, then the ALB's resolved DNS name, then the fixed
path `/oauth2/idpresponse` — and the dependency graph has an edge from the
ALB to the client (the client's descriptor references the ALB's DNS name),
so the client is created only after the entry point's address is knowable:
in every dependency-respecting schedule the ALB precedes the client. -/
theorem oauth_client_callback_url (order : List Node) (h : RespectsDeps order) :
    userPoolClientProps.callbackUrls =
      [[Piece.lit "https://", Piece.albDnsName, Piece.lit "/oauth2/idpresponse"]] ∧
    userPoolClientProps.callbackUrls.length = 1 ∧
    Node.alb ∈ deps Node.userPoolClient ∧
    Before Node.alb Node.userPoolClient order :=
  ⟨rfl, rfl, by decide, h _ _ (by decide)⟩

/-- Claim C6, witness: the property evaluated on the concrete full-stack
create schedule. -/
theorem oauth_client_callback_url_witness :
    userPoolClientProps.callbackUrls =
      [[Piece.lit "https://", Piece.albDnsName, Piece.lit "/oauth2/idpresponse"]] ∧
    userPoolClientProps.callbackUrls.length = 1 ∧
    Node.alb ∈ deps Node.userPoolClient ∧
    Before Node.alb Node.userPoolClient createOrder :=
  oauth_client_callback_url createOrder (by decide)

/-! ## Claim C7: authentication before forwarding -/

/-- Claim C7: the HTTPS listener terminates TLS (port 443, HTTPS protocol,
the bound certificate) and its default action chain is the Cognito
authenticate action whose `next` action forwards to the target group; per
request, an unauthenticated request is redirected to the hosted login and
never reaches the target group, while an authenticated request is
forwarded. -/
theorem listener_authenticates_before_forward :
    appListener.port = 443 ∧
    appListener.protocol = AppProtocol.https ∧
    appListener.certificateParams = ["cert-arn"] ∧
    appListener.defaultAction =
      LbAction.authenticateCognito Node.userPool Node.userPoolClient Node.userPoolDomain 30
        (LbAction.forward [Node.targetGroup]) ∧
    (∀ req : Request,
      evalAction appListener.defaultAction req =
        if req.authenticatedSession then RouteResult.forwarded [Node.targetGroup]
        else RouteResult.redirectToLogin) := by
  refine ⟨rfl, rfl, rfl, rfl, fun req => ?_⟩
  cases h : req.authenticatedSession <;> simp [appListener, evalAction, h]

/-! ## Claim C8: database reachable only from the compute service -/

/-- Claim C8: among all security-group ingress rules the stack creates, the
ones admitting traffic to the database instance's default port are exactly
one rule, whose peer is the ECS service's network identity — no other
principal is granted a path to the database. -/
theorem db_ingress_only_from_service :
    (securityIngressRules.filter fun r => r.target == Node.dbInstance) =
      [{ target := Node.dbInstance, peer := Node.ecsService }] ∧
    ((securityIngressRules.filter fun r => r.target == Node.dbInstance).all
      fun r => r.peer == Node.ecsService) = true := by
  decide

/-! ## Claim C10: the reconciler's create side effect is issued once -/

/-- Auxiliary: update events issue no SDK call for the `cognito-user`
custom resource (its `onUpdate` slot is empty), so any run of update events
contributes nothing to the calls issued. -/
theorem callsIssued_replicate_update (n : Nat) (t : List CfnEvent) :
    (List.replicate n CfnEvent.update ++ t).filterMap (callFor cognitoUserProps) =
      t.filterMap (callFor cognitoUserProps) := by
  induction n with
  | zero => rfl
  | succ k ih =>
    simp [List.replicate_succ, List.filterMap_cons, callFor, cognitoUserProps, ih]

/-- Auxiliary: over a whole stack lifetime — one creation, any number of
re-applications, optionally a final teardown — the `cognito-user` custom
resource issues exactly the `onCreate` call, followed by the `onDelete` call
exactly when the stack is torn down. -/
theorem callsIssued_lifecycle (n : Nat) (d : Bool) :
    callsIssued (lifecycleEvents n d) =
      onCreateCall :: (if d then [onDeleteCall] else []) := by
  have h := callsIssued_replicate_update n (if d then [CfnEvent.delete] else [])
  cases d <;>
    simp_all [callsIssued, lifecycleEvents, List.filterMap_cons, callFor, cognitoUserProps]

/-- Claim C10: across any stack lifetime (`n` re-applications, optional
teardown), `adminCreateUser` is invoked exactly once — at stack creation —
and `adminDeleteUser` is invoked exactly when the stack is deleted; the
custom resource defines no `onUpdate` call and pins the fixed physical
resource id `cb-cognito-user-create` on its `onCreate` call. -/
theorem reconciler_create_at_most_once (n : Nat) (deleted : Bool) :
    (callsIssued (lifecycleEvents n deleted)).map (fun c => c.action) =
      "adminCreateUser" :: (if deleted then ["adminDeleteUser"] else []) ∧
    cognitoUserProps.onUpdate = none ∧
    (cognitoUserProps.onCreate.map fun c => c.physicalResourceId) =
      some (some "cb-cognito-user-create") := by
  refine ⟨?_, rfl, rfl⟩
  rw [callsIssued_lifecycle]
  cases deleted <;> rfl

end CloudBeaver
